import Mathlib

/-! Shallow embedding of the OpenADR 2.0 VEN event handler (`oadr2/event.py`).

The handler consumes an `oadrDistributeEvent` payload, reconciles each
contained event against a durable event store, invokes a notification
callback, removes implicitly-cancelled events and assembles a reply payload.

Modelling conventions:
* An `lxml` element tree is abstracted to the record of fields the module's
  accessors read (`findtext` returns `Option String`; a missing element or
  empty text is `none` / `some ""`).
* Python exceptions (`int(None)` raising `TypeError`, `int("x")` raising
  `ValueError`) are modelled with `Except String`; an uncaught exception
  propagating out of `handle_payload` is an `Except.error` result.
* The mutable database handle `self.db` (module `database`, an external
  collaborator of this file) is modelled by explicit state passing of a
  `Store` value; `handle_payload` returns the resulting store states.
* The `schedule` module (external collaborator) is abstracted by a total
  `Jitter` oracle mapping the raw start text and the tolerance texts to the
  new start text (`str_to_datetime`/`random_offset`/`dttm_to_str` composed).
-/

/-- Constant `VALID_SIGNAL_TYPES` of `event.py`. -/
def VALID_SIGNAL_TYPES : List String := ["level", "price", "delta", "setpoint"]

/-- Constant `OADR_PROFILE_20A` of `event.py`. -/
def OADR_PROFILE_20A : String := "2.0a"

/-- Constant `OADR_PROFILE_20B` of `event.py`. -/
def OADR_PROFILE_20B : String := "2.0b"

/-- The namespace map `NS_A` of `event.py` (prefix, URI). -/
def NS_A : List (String × String) :=
  [("oadr", "http://openadr.org/oadr-2.0a/2012/07"),
   ("pyld", "http://docs.oasis-open.org/ns/energyinterop/201110/payloads"),
   ("ei", "http://docs.oasis-open.org/ns/energyinterop/201110"),
   ("emix", "http://docs.oasis-open.org/ns/emix/2011/06"),
   ("xcal", "urn:ietf:params:xml:ns:icalendar-2.0"),
   ("strm", "urn:ietf:params:xml:ns:icalendar-2.0:stream")]

/-- The namespace map `NS_B` of `event.py` (prefix, URI). -/
def NS_B : List (String × String) :=
  [("oadr", "http://openadr.org/oadr-2.0b/2012/07"),
   ("pyld", "http://docs.oasis-open.org/ns/energyinterop/201110/payloads"),
   ("ei", "http://docs.oasis-open.org/ns/energyinterop/201110"),
   ("emix", "http://docs.oasis-open.org/ns/emix/2011/06"),
   ("xcal", "urn:ietf:params:xml:ns:icalendar-2.0"),
   ("strm", "urn:ietf:params:xml:ns:icalendar-2.0:stream"),
   ("dsig11", "http://www.w3.org/2009/xmldsig11#"),
   ("ds", "http://www.w3.org/2000/09/xmldsig#"),
   ("clm", "urn:un:unece:uncefact:codelist:standard:5:ISO42173A:2010-04-07"),
   ("scale", "http://docs.oasis-open.org/ns/emix/2011/06/siscale"),
   ("power", "http://docs.oasis-open.org/ns/emix/2011/06/power"),
   ("gb", "http://naesb.org/espi"),
   ("atom", "http://www.w3.org/2005/Atom"),
   ("ccts", "urn:un:unece:uncefact:documentation:standard:CoreComponentsTechnicalSpecification:2"),
   ("gml", "http://www.opengis.net/gml/3.2"),
   ("gmlsf", "http://www.opengis.net/gmlsf/2.0"),
   ("xsi", "http://www.w3.org/2001/XMLSchema-instance")]

/-- One `ei:interval` below `strm:intervals` of an event signal: the texts at
`xcal:duration/xcal:duration`, `xcal:uid/xcal:text` and
`ei:signalPayload//ei:value` (each `findtext`, hence optional). -/
structure SignalInterval where
  duration : Option String
  uid : Option String
  value : Option String
deriving DecidableEq, Repr

/-- One `ei:eiEventSignal` element: `ei:signalName` and `ei:signalType`
texts plus its `strm:intervals/ei:interval` children. -/
structure EventSignal where
  signalName : Option String
  signalType : Option String
  intervals : List SignalInterval
deriving DecidableEq, Repr

/-- The fields of an `ei:eiEvent` element tree that `event.py`'s accessors
read.  `findtext` on a missing element yields `none`; `iterfind` over
missing children yields `[]`.  Target-list entries are the `.text` of each
matched element (which can itself be missing). -/
structure EiEvent where
  eventID : Option String
  eventStatus : Option String
  modificationNumber : Option String
  marketContext : Option String
  currentValue : Option String
  eiEventSignals : List EventSignal
  dtstart : Option String
  startbefore : Option String
  startafter : Option String
  partyIDs : List (Option String)
  groupIDs : List (Option String)
  resourceIDs : List (Option String)
  venIDs : List (Option String)
deriving DecidableEq, Repr

/-- An `oadr:oadrEvent` wrapper: the `oadr:oadrResponseRequired` text and the
nested `ei:eiEvent`. -/
structure OadrEvent where
  oadrResponseRequired : Option String
  eiEvent : EiEvent
deriving DecidableEq, Repr

/-- An `oadr:oadrDistributeEvent` payload: `pyld:requestID`, `ei:vtnID` and
the `oadr:oadrEvent` children. -/
structure DistributeEvent where
  requestID : Option String
  vtnID : Option String
  events : List OadrEvent
deriving DecidableEq, Repr

/-- Function `get_event_id` of `event.py`: `findtext("ei:eventDescriptor/ei:eventID")`. -/
def get_event_id (evt : EiEvent) : Option String := evt.eventID

/-- Function `get_status` of `event.py`: `findtext("ei:eventDescriptor/ei:eventStatus")`. -/
def get_status (evt : EiEvent) : Option String := evt.eventStatus

/-- Decimal digit value of a character, `none` for a non-digit. -/
def charDigit? (c : Char) : Option Nat :=
  if 48 ≤ c.toNat ∧ c.toNat ≤ 57 then some (c.toNat - 48) else none

/-- Accumulate decimal digits; `none` on the first non-digit. -/
def digitsToNat : List Char → Nat → Option Nat
  | [], acc => some acc
  | c :: cs, acc =>
    match charDigit? c with
    | none => none
    | some d => digitsToNat cs (acc * 10 + d)

/-- Python `int(s)` on a string: an optional minus sign followed by at
least one decimal digit (whitespace tolerance and other `int` niceties are
not modelled). -/
def pyInt? (s : String) : Option Int :=
  match s.data with
  | [] => none
  | '-' :: cs => if cs = [] then none else (digitsToNat cs 0).map (fun n => -(n : Int))
  | cs => if cs = [] then none else (digitsToNat cs 0).map (fun n => (n : Int))

/-- Function `get_mod_number` of `event.py`:
`int(evt.findtext("ei:eventDescriptor/ei:modificationNumber"))`.
`int(None)` raises `TypeError`; `int` of a non-numeric string raises
`ValueError`; both are modelled as `Except.error`. -/
def get_mod_number (evt : EiEvent) : Except String Int :=
  match evt.modificationNumber with
  | none => Except.error "TypeError: int() argument is None"
  | some s =>
    match pyInt? s with
    | none => Except.error "ValueError: invalid literal for int()"
    | some n => Except.ok n

/-- Function `get_market_context` of `event.py`. -/
def get_market_context (evt : EiEvent) : Option String := evt.marketContext

/-- Function `get_current_signal_value` of `event.py`. -/
def get_current_signal_value (evt : EiEvent) : Option String := evt.currentValue

/-- Python membership `signal_type in VALID_SIGNAL_TYPES` where
`signal_type` is `findtext` output (`None` is in no tuple of strings). -/
def sigTypeValid : Option String → Bool
  | some t => VALID_SIGNAL_TYPES.contains t
  | none => false

/-- Function `get_signals` of `event.py`: iterate the event's signal definitions,
remembering the *last* one whose name is `"simple"` and whose type is valid
(each assignment to `simple_signal` overwrites the previous one); if none
qualifies return `None`, otherwise the list of
`(duration, uid, value)` tuples of the chosen signal's intervals. -/
def get_signals (evt : EiEvent) :
    Option (List (Option String × Option String × Option String)) :=
  let simple_signal := evt.eiEventSignals.foldl
    (fun acc signal =>
      if signal.signalName = some "simple" && sigTypeValid signal.signalType then
        some signal
      else acc)
    none
  match simple_signal with
  | none => none
  | some s => some (s.intervals.map (fun i => (i.duration, i.uid, i.value)))

/-- Function `get_active_period_start` of `event.py`, up to the external
`schedule.str_to_datetime` conversion: the raw
`ei:eiActivePeriod/xcal:properties/xcal:dtstart/xcal:date-time` text. -/
def get_active_period_start (evt : EiEvent) : Option String := evt.dtstart

/-- Function `set_active_period_start` of `event.py`: overwrite the `.text` of the
`xcal:date-time` element with the serialized datetime. -/
def set_active_period_start (evt : EiEvent) (dttm : String) : EiEvent :=
  { evt with dtstart := some dttm }

/-- Function `get_start_before_after` of `event.py`: the pair of
`xcal:startbefore` and `xcal:startafter` texts. -/
def get_start_before_after (evt : EiEvent) : Option String × Option String :=
  (evt.startbefore, evt.startafter)

/-- Function `get_group_ids` of `event.py`. -/
def get_group_ids (evt : EiEvent) : List (Option String) := evt.groupIDs

/-- Function `get_resource_ids` of `event.py`. -/
def get_resource_ids (evt : EiEvent) : List (Option String) := evt.resourceIDs

/-- Function `get_party_ids` of `event.py`. -/
def get_party_ids (evt : EiEvent) : List (Option String) := evt.partyIDs

/-- Function `get_ven_ids` of `event.py`. -/
def get_ven_ids (evt : EiEvent) : List (Option String) := evt.venIDs

/-- Python truthiness of a `findtext` result: `None` and the empty string
are falsy, any other string is truthy. -/
def textTruthy : Option String → Bool
  | none => false
  | some s => !(s = "")

/-- Python truthiness of an optional CSV-derived list
(`self.vtn_ids`, `self.market_contexts`): `None` and `[]` are falsy. -/
def csvTruthy : Option (List String) → Bool
  | none => false
  | some l => !l.isEmpty

/-- Python membership `x in lst` for an optional string `x` against an
optional list of strings (used for `vtnID`/`marketContext` checks);
when the list is absent the code never evaluates the membership, so the
`none` list case is arbitrary here (`false`). -/
def optInList (x : Option String) (l : Option (List String)) : Bool :=
  match x, l with
  | some s, some xs => xs.contains s
  | _, _ => false

/-- The engine's configuration state set up by `EventHandler.__init__`.
`event_callback` only matters through its presence (`is not None`), so it is
modelled as a `Bool`. -/
structure EventHandler where
  ven_id : String
  vtn_ids : Option (List String)
  market_contexts : Option (List String)
  group_id : Option String
  resource_id : Option String
  party_id : Option String
  oadr_profile_level : String
  ns_map : List (String × String)
  event_callback : Bool
deriving DecidableEq, Repr

/-- Constructor `EventHandler.__init__` of `event.py`: splits the CSV configuration
strings and selects the profile level and namespace map, silently falling
back to the 2.0a profile for any unrecognized profile string. -/
def mkEventHandler (ven_id : String) (vtn_ids market_contexts : Option String)
    (group_id resource_id party_id : Option String)
    (oadr_profile_level : String) (event_callback : Bool) : EventHandler :=
  let profile_ns :=
    if oadr_profile_level = OADR_PROFILE_20A then (oadr_profile_level, NS_A)
    else if oadr_profile_level = OADR_PROFILE_20B then (oadr_profile_level, NS_B)
    else (OADR_PROFILE_20A, NS_A)
  { ven_id := ven_id
    vtn_ids := vtn_ids.map (fun s => s.splitOn ",")
    market_contexts := market_contexts.map (fun s => s.splitOn ",")
    group_id := group_id
    resource_id := resource_id
    party_id := party_id
    oadr_profile_level := profile_ns.1
    ns_map := profile_ns.2
    event_callback := event_callback }

/-- Method `check_target_info` of `event.py`: default-accept when all four target
lists are empty, otherwise accept exactly when the local identity appears in
one of the populated lists. -/
def check_target_info (h : EventHandler) (evt : EiEvent) : Bool :=
  let party_ids := get_party_ids evt
  let group_ids := get_group_ids evt
  let resource_ids := get_resource_ids evt
  let ven_ids := get_ven_ids evt
  if !party_ids.isEmpty || !group_ids.isEmpty
      || !resource_ids.isEmpty || !ven_ids.isEmpty then
    let accept := false
    let accept := if !party_ids.isEmpty && party_ids.contains h.party_id then true else accept
    let accept := if !group_ids.isEmpty && group_ids.contains h.group_id then true else accept
    let accept := if !resource_ids.isEmpty && resource_ids.contains h.resource_id then true else accept
    let accept := if !ven_ids.isEmpty && ven_ids.contains (some h.ven_id) then true else accept
    accept
  else
    true

/-- Modelled from the spec: one persisted row of the Event Store
(`database.DBHandler`, a module not under `src/`), laid out as
`(vtnId, eventId, modificationNumber, rawPayload)` per the spec's
persisted-state description; the raw XML payload is kept in parsed form. -/
structure StoreRow where
  vtn_id : Option String
  e_id : Option String
  mod_num : Int
  event : EiEvent
deriving DecidableEq, Repr

/-- Modelled from the spec: the Event Store state, a finite map from event
id to its row (association list). -/
abbrev Store := List StoreRow

/-- Modelled from the spec: `DBHandler.get_event(e_id)` — lookup by id
(first matching row). -/
def db_get_event : Store → Option String → Option EiEvent
  | [], _ => none
  | r :: rest, k => if r.e_id = k then some r.event else db_get_event rest k

/-- Modelled from the spec: `DBHandler.update_event` — upsert: replace the
stored row for the id, or append a fresh row. -/
def db_update_event : Store → Option String → Int → EiEvent → Option String → Store
  | [], e_id, m, evt, vtn => [⟨vtn, e_id, m, evt⟩]
  | r :: rest, e_id, m, evt, vtn =>
    if r.e_id = e_id then ⟨vtn, e_id, m, evt⟩ :: rest
    else r :: db_update_event rest e_id m evt vtn

/-- Modelled from the spec: `DBHandler.remove_events(ids)` — drop every row
whose id is in the list. -/
def db_remove_events (st : Store) (ids : List (Option String)) : Store :=
  st.filter (fun r => !(ids.contains r.e_id))

/-- Modelled from the spec: `DBHandler.get_active_events()` followed by
`etree.XML` parsing in `EventHandler.get_active_events` — the stored event
records. -/
def db_get_active_events (st : Store) : List EiEvent := st.map (fun r => r.event)

/-- Method `EventHandler.get_event` of `event.py`: database lookup plus XML
parsing (parsing is the identity in this model). -/
def get_event (st : Store) (e_id : Option String) : Option EiEvent :=
  db_get_event st e_id

/-- Method `EventHandler.update_event` of `event.py`: re-extracts the modification
number of the event (which can raise, as in `get_mod_number`) and upserts
the serialized event into the store. -/
def update_event (st : Store) (e_id : Option String) (event : EiEvent)
    (vtn_id : Option String) : Except String Store :=
  match get_mod_number event with
  | Except.error e => Except.error e
  | Except.ok m => Except.ok (db_update_event st e_id m event vtn_id)

/-- Python `dict` insertion `d[k] = v` for a dict modelled as an
association list: overwrite the existing entry or append a new one. -/
def dictInsert {β : Type} (m : List (Option String × β)) (k : Option String)
    (v : β) : List (Option String × β) :=
  if m.any (fun p => p.1 = k) then
    m.map (fun p => if p.1 = k then (k, v) else p)
  else m ++ [(k, v)]

/-- A per-event reply entry appended to `reply_events` in `handle_payload`:
the tuple `(e_id, e_mod_num, requestID, opt, status)`. -/
structure Decision where
  e_id : Option String
  mod_num : Int
  requestID : Option String
  opt : String
  status : String
deriving DecidableEq, Repr

/-- Lines 186–211 of `event.py`: starting from `optIn`/`200`, each of the
four admission checks runs unconditionally and overwrites `(opt, status)`
when it fails: version conflict `403`, targeting mismatch `403`, missing
simple signal `403`, market-context mismatch `405`. -/
def computeReplyOptStatus (h : EventHandler) (evt : EiEvent)
    (old_mod_num : Option Int) (e_mod_num : Int) : String × String :=
  let os : String × String := ("optIn", "200")
  let os := match old_mod_num with
    | some m => if m > e_mod_num then ("optOut", "403") else os
    | none => os
  let os := if !(check_target_info h evt) then ("optOut", "403") else os
  let os := if (get_signals evt).isNone then ("optOut", "403") else os
  let os := if csvTruthy h.market_contexts
      && !(optInList (get_market_context evt) h.market_contexts) then
      ("optOut", "405")
    else os
  os

/-- The loop-local state of `handle_payload`'s per-event loop: the store
(mutated in place through `self.db`), `reply_events`, `all_events` and the
`updated_events` dict. -/
structure LoopState where
  store : Store
  reply_events : List Decision
  all_events : List (Option String)
  updated_events : List (Option String × EiEvent)
deriving DecidableEq, Repr

/-- The external `schedule` collaborator, abstracted: maps the raw
`dtstart` text and the `(startbefore, startafter)` tolerance texts to the
serialized randomized start time. -/
abbrev Jitter := Option String → Option String → Option String → String

/-- One iteration of the `for evt in payload.iterfind('oadr:oadrEvent')`
loop of `handle_payload` (lines 163–234): extract fields, compute response
eligibility and the reply entry, and persist the (possibly jittered) event
when it is new or strictly newer.  The extracted `e_status` and
`current_signal_val` are only logged by the source and are not used. -/
def processOadrEvent (h : EventHandler) (jit : Jitter)
    (requestID vtnID : Option String) (ls : LoopState) (oe : OadrEvent) :
    Except String LoopState :=
  let response_required := oe.oadrResponseRequired
  let evt := oe.eiEvent
  let e_id := get_event_id evt
  match get_mod_number evt with
  | Except.error e => Except.error e
  | Except.ok e_mod_num =>
    let old_event := get_event ls.store e_id
    match (match old_event with
           | none => Except.ok (none : Option Int)
           | some o =>
             match get_mod_number o with
             | Except.error e => Except.error e
             | Except.ok m => Except.ok (some m)) with
    | Except.error e => Except.error e
    | Except.ok old_mod_num =>
      let newer : Bool := match old_mod_num with
        | none => true
        | some m => decide (e_mod_num > m)
      let reply_events :=
        if (newer || response_required = some "always")
            && !(response_required = some "never") then
          ls.reply_events
            ++ [{ e_id := e_id, mod_num := e_mod_num, requestID := requestID,
                  opt := (computeReplyOptStatus h evt old_mod_num e_mod_num).1,
                  status := (computeReplyOptStatus h evt old_mod_num e_mod_num).2 }]
        else ls.reply_events
      if newer then
        let start_offset := get_start_before_after evt
        let evt2 :=
          if textTruthy start_offset.1 || textTruthy start_offset.2 then
            set_active_period_start evt
              (jit (get_active_period_start evt) start_offset.1 start_offset.2)
          else evt
        match update_event ls.store e_id evt2 vtnID with
        | Except.error e => Except.error e
        | Except.ok st2 =>
          Except.ok { store := st2, reply_events := reply_events,
                      all_events := ls.all_events ++ [e_id],
                      updated_events := dictInsert ls.updated_events e_id evt2 }
      else
        Except.ok { ls with reply_events := reply_events,
                            all_events := ls.all_events ++ [e_id] }

/-- Lines 236–243 of `event.py`: build the `remove_events` dict of every
active stored event whose id was not seen in this batch. -/
def computeRemoveEvents (st : Store) (all_events : List (Option String)) :
    List (Option String × Option EiEvent) :=
  (db_get_active_events st).foldl
    (fun m evt =>
      if all_events.contains (get_event_id evt) then m
      else dictInsert m (get_event_id evt) (get_event st (get_event_id evt)))
    []

/-- A reply payload assembled by `handle_payload`:
`build_created_payload` (an `oadrCreatedEvent` listing the per-event
responses) or `build_error_response` (an `oadrCreatedEvent` carrying only a
response code). -/
inductive Response where
  | created (eventResponses : List Decision) (venID : String)
  | error (responseCode : String) (venID : String)
deriving DecidableEq, Repr

/-- The observable outcome of one `handle_payload` call: the reply entries,
the `updated_events` and `remove_events` dicts handed to the callback, the
store state at the moment the callback runs (`none` when no callback is
invoked), the final store state, and the returned payload. -/
structure PassResult where
  decisions : List Decision
  updated : List (Option String × EiEvent)
  removed : List (Option String × Option EiEvent)
  callbackStore : Option Store
  finalStore : Store
  reply : Option Response
deriving Repr

/-- Method `EventHandler.handle_payload` of `event.py` (lines 139–261): VTN
allowlist gate, per-event reconciliation loop, implicit-cancellation scan,
callback invocation (its own exceptions are caught and ignored), removal
commit, and reply assembly.  The store is threaded explicitly; an uncaught
per-event exception aborts the whole call as `Except.error`. -/
def handle_payload (h : EventHandler) (jit : Jitter) (st : Store)
    (payload : DistributeEvent) : Except String PassResult :=
  let requestID := payload.requestID
  let vtnID := payload.vtnID
  if csvTruthy h.vtn_ids && !(optInList vtnID h.vtn_ids) then
    Except.ok { decisions := [], updated := [], removed := [],
                callbackStore := none, finalStore := st,
                reply := some (Response.error "400" h.ven_id) }
  else
    match payload.events.foldlM (processOadrEvent h jit requestID vtnID)
        ⟨st, [], [], []⟩ with
    | Except.error e => Except.error e
    | Except.ok ls =>
      let remove_events := computeRemoveEvents ls.store ls.all_events
      Except.ok
        { decisions := ls.reply_events
          updated := ls.updated_events
          removed := remove_events
          callbackStore := if h.event_callback then some ls.store else none
          finalStore := db_remove_events ls.store (remove_events.map Prod.fst)
          reply := if ls.reply_events.isEmpty then none
                   else some (Response.created ls.reply_events h.ven_id) }

/-- Store well-formedness: every row is keyed by the event id stored inside
its own payload (which is how every row written by `update_event` is
keyed). -/
def StoreWF (st : Store) : Prop :=
  ∀ r ∈ st, r.e_id = get_event_id r.event

/-! Concrete instances used by witnesses and counterexamples. -/

/-- A fixed jitter oracle for concrete runs. -/
def jit0 : Jitter := fun _ _ _ => "2014-01-01T00:00:00Z"

/-- A well-formed `simple`/`level` signal with one interval. -/
def simpleSignal : EventSignal :=
  { signalName := some "simple", signalType := some "level",
    intervals := [{ duration := some "PT1M", uid := some "0",
                    value := some "1.0" }] }

/-- A well-formed untargeted event with the given id and modification
number text and one simple signal. -/
def sampleEvent (i m : String) : EiEvent :=
  { eventID := some i, eventStatus := some "far",
    modificationNumber := some m, marketContext := some "m1",
    currentValue := none, eiEventSignals := [simpleSignal],
    dtstart := some "t0", startbefore := none, startafter := none,
    partyIDs := [], groupIDs := [], resourceIDs := [], venIDs := [] }

/-- A handler with no VTN or market-context allowlists and no callback. -/
def sampleHandler : EventHandler :=
  { ven_id := "ven1", vtn_ids := none, market_contexts := none,
    group_id := none, resource_id := none, party_id := none,
    oadr_profile_level := "2.0a", ns_map := NS_A, event_callback := false }

/-- A one-event batch from `vtn1` marked `responseRequired = always`. -/
def samplePayload (evt : EiEvent) : DistributeEvent :=
  { requestID := some "r1", vtnID := some "vtn1",
    events := [{ oadrResponseRequired := some "always", eiEvent := evt }] }

/-- Stored row for `E1` at modification number 1. -/
def rowE1 : StoreRow := ⟨some "vtn1", some "E1", 1, sampleEvent "E1" "1"⟩

/-- Stored row for `E0` at modification number 1. -/
def rowE0 : StoreRow := ⟨some "vtn1", some "E0", 1, sampleEvent "E0" "1"⟩

/-- The `optIn/200` reply entry for `E1` at modification number 1. -/
def decE1optIn : Decision :=
  { e_id := some "E1", mod_num := 1, requestID := some "r1",
    opt := "optIn", status := "200" }

/-- A store holding only `E1` at modification number 1. -/
def storeE1mod1 : Store := [rowE1]

/-- A store holding only `E0` at modification number 1. -/
def storeE0mod1 : Store := [rowE0]

/-- The pass result of re-delivering `E1` at the stored modification
number 1 with `responseRequired = always` against `storeE1mod1`. -/
def resW1 : PassResult :=
  { decisions := [decE1optIn], updated := [], removed := [],
    callbackStore := none, finalStore := storeE1mod1,
    reply := some (Response.created [decE1optIn] "ven1") }

/-- The pass result of delivering a fresh `E1` against a store holding
only `E0` (no callback configured). -/
def resW2 : PassResult :=
  { decisions := [decE1optIn],
    updated := [(some "E1", sampleEvent "E1" "1")],
    removed := [(some "E0", some (sampleEvent "E0" "1"))],
    callbackStore := none, finalStore := [rowE1],
    reply := some (Response.created [decE1optIn] "ven1") }

/-- A handler that accepts only market context `m1`. -/
def hC3 : EventHandler := { sampleHandler with market_contexts := some ["m1"] }

/-- A store holding `E1` at modification number 5. -/
def stC3 : Store := [⟨some "vtn1", some "E1", 5, sampleEvent "E1" "5"⟩]

/-- Incoming `E1` at modification number 1 in the foreign market context
`m2`: version conflict and market-context mismatch at once. -/
def evtC3 : EiEvent := { sampleEvent "E1" "1" with marketContext := some "m2" }

/-- Loop state whose store holds `E1` at modification number 2. -/
def lsW4 : LoopState :=
  ⟨[⟨some "vtn1", some "E1", 2, sampleEvent "E1" "2"⟩], [], [], []⟩

/-- An always-respond envelope re-delivering `E1` at modification 1. -/
def oeW4 : OadrEvent :=
  { oadrResponseRequired := some "always", eiEvent := sampleEvent "E1" "1" }

/-- The loop state after processing `oeW4` from `lsW4`. -/
def lsW4' : LoopState :=
  ⟨[⟨some "vtn1", some "E1", 2, sampleEvent "E1" "2"⟩],
   [{ e_id := some "E1", mod_num := 1, requestID := some "r1",
      opt := "optOut", status := "403" }],
   [some "E1"], []⟩

/-- Handler `sampleHandler` with a notification callback registered. -/
def hC5 : EventHandler := { sampleHandler with event_callback := true }

/-- The pass result of delivering a fresh `E1` against a store holding
only `E0`, with a callback configured. -/
def resW5 : PassResult :=
  { decisions := [decE1optIn],
    updated := [(some "E1", sampleEvent "E1" "1")],
    removed := [(some "E0", some (sampleEvent "E0" "1"))],
    callbackStore := some [rowE0, rowE1], finalStore := [rowE1],
    reply := some (Response.created [decE1optIn] "ven1") }

/-- A qualifying `simple` signal with zero intervals. -/
def emptySignal : EventSignal :=
  { signalName := some "simple", signalType := some "level", intervals := [] }

/-- An event whose only signal is a qualifying `simple` signal with zero
intervals. -/
def evtC8 : EiEvent := { sampleEvent "E1" "1" with eiEventSignals := [emptySignal] }

/-- An event whose modification-number element is missing. -/
def badEvt : EiEvent := { sampleEvent "E2" "1" with modificationNumber := none }

/-- A batch whose first event is malformed and whose second is valid. -/
def pC9 : DistributeEvent :=
  { requestID := some "r1", vtnID := some "vtn1",
    events := [{ oadrResponseRequired := some "always", eiEvent := badEvt },
               { oadrResponseRequired := some "always",
                 eiEvent := sampleEvent "E1" "1" }] }

/-- A second qualifying `simple` signal (type `price`) with one interval. -/
def sigB : EventSignal :=
  { signalName := some "simple", signalType := some "price",
    intervals := [{ duration := some "PT2M", uid := some "1",
                    value := some "2.0" }] }

/-- An event with two qualifying `simple` signals in document order. -/
def evtW7 : EiEvent :=
  { sampleEvent "E1" "1" with eiEventSignals := [simpleSignal, sigB] }

/-- A signal named `other`: never qualifies. -/
def sigOther : EventSignal :=
  { signalName := some "other", signalType := some "level", intervals := [] }

/-- An event whose only signal is named `other`. -/
def evtW7b : EiEvent := { sampleEvent "E1" "1" with eiEventSignals := [sigOther] }

/-! Helper lemmas about the store and dict models. -/

lemma db_get_event_update (st : Store) (e_id : Option String) (m : Int)
    (evt : EiEvent) (vtn k : Option String) :
    db_get_event (db_update_event st e_id m evt vtn) k =
      if k = e_id then some evt else db_get_event st k := by
  induction st with
  | nil =>
    by_cases hk : k = e_id
    · simp [db_update_event, db_get_event, hk]
    · simp [db_update_event, db_get_event, hk, Ne.symm hk]
  | cons r rest ih =>
    by_cases hr : r.e_id = e_id <;> by_cases hk : k = e_id <;>
      by_cases hk2 : r.e_id = k <;>
      simp_all [db_update_event, db_get_event, Ne.symm]

lemma db_get_event_remove (st : Store) (ids : List (Option String))
    (k : Option String) :
    db_get_event (db_remove_events st ids) k =
      if ids.contains k then none else db_get_event st k := by
  induction st with
  | nil => cases h : ids.contains k <;> simp [db_remove_events, db_get_event, h]
  | cons r rest ih =>
    cases h : ids.contains k <;> by_cases hk2 : r.e_id = k <;>
      by_cases hr : ids.contains r.e_id = true <;>
      simp_all [db_remove_events, db_get_event, List.filter_cons]

lemma db_get_event_some_mem (st : Store) (k : Option String) (e : EiEvent)
    (h : db_get_event st k = some e) : ∃ r ∈ st, r.e_id = k ∧ r.event = e := by
  induction st with
  | nil => simp [db_get_event] at h
  | cons r rest ih =>
    simp only [db_get_event] at h
    by_cases hr : r.e_id = k
    · rw [if_pos hr] at h
      exact ⟨r, by simp, hr, Option.some_injective _ h⟩
    · rw [if_neg hr] at h
      obtain ⟨r', hmem, hk, he⟩ := ih h
      exact ⟨r', by simp [hmem], hk, he⟩

lemma db_update_event_mem (st : Store) (e_id : Option String) (m : Int)
    (evt : EiEvent) (vtn : Option String) (r : StoreRow)
    (h : r ∈ db_update_event st e_id m evt vtn) :
    r ∈ st ∨ r = ⟨vtn, e_id, m, evt⟩ := by
  induction st with
  | nil => simp only [db_update_event, List.mem_singleton] at h; exact Or.inr h
  | cons r' rest ih =>
    simp only [db_update_event] at h
    by_cases hr : r'.e_id = e_id
    · rw [if_pos hr] at h
      rcases List.mem_cons.1 h with h | h
      · exact Or.inr h
      · exact Or.inl (List.mem_cons_of_mem _ h)
    · rw [if_neg hr] at h
      rcases List.mem_cons.1 h with h | h
      · exact Or.inl (h ▸ List.mem_cons_self _ _)
      · rcases ih h with h | h
        · exact Or.inl (List.mem_cons_of_mem _ h)
        · exact Or.inr h

lemma storeWF_update (st : Store) (e_id : Option String) (m : Int)
    (evt : EiEvent) (vtn : Option String) (hwf : StoreWF st)
    (hid : e_id = get_event_id evt) :
    StoreWF (db_update_event st e_id m evt vtn) := by
  intro r hr
  rcases db_update_event_mem st e_id m evt vtn r hr with h | h
  · exact hwf r h
  · subst h; exact hid

lemma get_mod_number_set_active_period_start (evt : EiEvent) (s : String) :
    get_mod_number (set_active_period_start evt s) = get_mod_number evt := rfl

lemma get_event_id_set_active_period_start (evt : EiEvent) (s : String) :
    get_event_id (set_active_period_start evt s) = get_event_id evt := rfl

lemma dictInsert_keys_mem {β : Type} (m : List (Option String × β))
    (k v : _) (j : Option String) :
    j ∈ (dictInsert m k (v : β)).map Prod.fst ↔ j ∈ m.map Prod.fst ∨ j = k := by
  unfold dictInsert
  by_cases hany : m.any (fun p => p.1 = k)
  · rw [if_pos hany]
    simp only [List.any_eq_true, decide_eq_true_eq] at hany
    obtain ⟨p, hp, hpk⟩ := hany
    constructor
    · rintro hj
      simp only [List.map_map, List.mem_map, Function.comp] at hj
      obtain ⟨q, hq, hqe⟩ := hj
      by_cases hqk : q.1 = k
      · right; rw [if_pos hqk] at hqe; exact hqe ▸ rfl
      · left; rw [if_neg hqk] at hqe
        exact hqe ▸ List.mem_map_of_mem Prod.fst hq
    · rintro (hj | rfl)
      · simp only [List.mem_map] at hj
        obtain ⟨q, hq, hqe⟩ := hj
        simp only [List.map_map, List.mem_map, Function.comp]
        by_cases hqk : q.1 = k
        · exact ⟨p, hp, by rw [if_pos hpk]; rw [← hqe, hqk]⟩
        · exact ⟨q, hq, by rw [if_neg hqk]; exact hqe⟩
      · simp only [List.map_map, List.mem_map, Function.comp]
        exact ⟨p, hp, by rw [if_pos hpk]⟩
  · rw [if_neg hany]
    simp

lemma dictInsert_mem {β : Type} (m : List (Option String × β)) (k : Option String)
    (v : β) (p : Option String × β) (hp : p ∈ dictInsert m k v) :
    p = (k, v) ∨ (p ∈ m ∧ p.1 ≠ k) := by
  unfold dictInsert at hp
  by_cases hany : m.any (fun q => q.1 = k)
  · rw [if_pos hany] at hp
    simp only [List.mem_map] at hp
    obtain ⟨q, hq, hqe⟩ := hp
    by_cases hqk : q.1 = k
    · rw [if_pos hqk] at hqe; exact Or.inl hqe.symm
    · rw [if_neg hqk] at hqe; exact Or.inr ⟨hqe ▸ hq, hqe ▸ hqk⟩
  · rw [if_neg hany] at hp
    rcases List.mem_append.1 hp with h | h
    · simp only [List.any_eq_true, decide_eq_true_eq] at hany
      push_neg at hany
      exact Or.inr ⟨h, hany p h⟩
    · exact Or.inl (List.mem_singleton.1 h)

lemma except_ok_bind {ε α β : Type} (x : α) (f : α → Except ε β) :
    (Except.ok x >>= f) = f x := rfl

lemma except_error_bind {ε α β : Type} (e : ε) (f : α → Except ε β) :
    ((Except.error e : Except ε α) >>= f) = Except.error e := rfl

lemma update_event_ok (st : Store) (e_id : Option String) (evt : EiEvent)
    (vtn : Option String) (m : Int) (hm : get_mod_number evt = Except.ok m) :
    update_event st e_id evt vtn =
      Except.ok (db_update_event st e_id m evt vtn) := by
  simp [update_event, hm]

lemma db_get_event_isSome_of_mem (st : Store) (r : StoreRow) (k : Option String)
    (hr : r ∈ st) (hk : r.e_id = k) : (db_get_event st k).isSome := by
  induction st with
  | nil => cases hr
  | cons r' rest ih =>
    rcases List.mem_cons.1 hr with h | h
    · subst h
      simp [db_get_event, hk]
    · by_cases hr' : r'.e_id = k
      · simp [db_get_event, hr']
      · simp only [db_get_event, if_neg hr']
        exact ih h

/-- Specification of one iteration of the per-event loop: what it does to
`all_events`, to store entries at other ids, to store well-formedness, and
to the correspondence between the `updated_events` dict and the store. -/
lemma processOadrEvent_spec (h : EventHandler) (jit : Jitter)
    (rid vtn : Option String) (ls ls' : LoopState) (oe : OadrEvent)
    (hstep : processOadrEvent h jit rid vtn ls oe = Except.ok ls') :
    ls'.all_events = ls.all_events ++ [get_event_id oe.eiEvent]
    ∧ (∀ k, k ≠ get_event_id oe.eiEvent →
        db_get_event ls'.store k = db_get_event ls.store k)
    ∧ (StoreWF ls.store → StoreWF ls'.store)
    ∧ ((∀ p ∈ ls.updated_events, db_get_event ls.store p.1 = some p.2) →
       ∀ p ∈ ls'.updated_events, db_get_event ls'.store p.1 = some p.2) := by
  simp only [processOadrEvent] at hstep
  split at hstep
  · exact absurd hstep (by simp)
  · rename_i e_mod_num heqm
    split at hstep
    · exact absurd hstep (by simp)
    · rename_i old_mod_num heqo
      split at hstep
      · -- newer: the event is persisted
        have hm2 : get_mod_number
            (if textTruthy (get_start_before_after oe.eiEvent).1
                || textTruthy (get_start_before_after oe.eiEvent).2 then
              set_active_period_start oe.eiEvent
                (jit (get_active_period_start oe.eiEvent)
                  (get_start_before_after oe.eiEvent).1
                  (get_start_before_after oe.eiEvent).2)
            else oe.eiEvent) = Except.ok e_mod_num := by
          split
          · rw [get_mod_number_set_active_period_start]; exact heqm
          · exact heqm
        simp only [update_event_ok _ _ _ _ _ hm2] at hstep
        have hid2 : get_event_id
            (if textTruthy (get_start_before_after oe.eiEvent).1
                || textTruthy (get_start_before_after oe.eiEvent).2 then
              set_active_period_start oe.eiEvent
                (jit (get_active_period_start oe.eiEvent)
                  (get_start_before_after oe.eiEvent).1
                  (get_start_before_after oe.eiEvent).2)
            else oe.eiEvent) = get_event_id oe.eiEvent := by
          split
          · rw [get_event_id_set_active_period_start]
          · rfl
        injection hstep with hls'
        subst hls'
        refine ⟨rfl, ?_, ?_, ?_⟩
        · intro k hk
          simp only [db_get_event_update, if_neg hk]
        · intro hwf
          exact storeWF_update _ _ _ _ _ hwf hid2.symm
        · intro hinv p hp
          rcases dictInsert_mem _ _ _ _ hp with hpe | ⟨hpm, hpne⟩
          · subst hpe
            simp [db_get_event_update]
          · simp only [db_get_event_update, if_neg hpne]
            exact hinv p hpm
      · -- not newer: store and updated_events unchanged
        injection hstep with hls'
        subst hls'
        exact ⟨rfl, fun k _ => rfl, fun hwf => hwf, fun hinv => hinv⟩

/-- The loop body leaves the store unchanged when a record for the id is
already stored with a modification number at least as large as the
incoming one. -/
lemma processOadrEvent_stale (h : EventHandler) (jit : Jitter)
    (rid vtn : Option String) (ls ls' : LoopState) (oe : OadrEvent)
    (old : EiEvent) (om im : Int)
    (hstep : processOadrEvent h jit rid vtn ls oe = Except.ok ls')
    (hold : db_get_event ls.store (get_event_id oe.eiEvent) = some old)
    (hom : get_mod_number old = Except.ok om)
    (him : get_mod_number oe.eiEvent = Except.ok im)
    (hle : im ≤ om) :
    ls'.store = ls.store := by
  have hdec : decide (im > om) = false := decide_eq_false (not_lt.2 hle)
  simp only [processOadrEvent, get_event, him, hold, hom, hdec] at hstep
  split at hstep
  · rename_i hcond
    exact absurd hcond (by simp)
  · injection hstep with hls'
    subst hls'
    rfl

/-- The per-event loop over a whole batch: `all_events` collects the batch
ids in order, store entries at ids outside the batch are untouched, store
well-formedness is preserved, and every entry of the `updated_events` dict
is exactly what the store holds for that id. -/
lemma foldl_processOadrEvent_spec (h : EventHandler) (jit : Jitter)
    (rid vtn : Option String) :
    ∀ (l : List OadrEvent) (ls ls' : LoopState),
    l.foldlM (processOadrEvent h jit rid vtn) ls = Except.ok ls' →
    ls'.all_events = ls.all_events ++ l.map (fun oe => get_event_id oe.eiEvent)
    ∧ (∀ k, k ∉ l.map (fun oe => get_event_id oe.eiEvent) →
        db_get_event ls'.store k = db_get_event ls.store k)
    ∧ (StoreWF ls.store → StoreWF ls'.store)
    ∧ ((∀ p ∈ ls.updated_events, db_get_event ls.store p.1 = some p.2) →
       ∀ p ∈ ls'.updated_events, db_get_event ls'.store p.1 = some p.2) := by
  intro l
  induction l with
  | nil =>
    intro ls ls' hfold
    simp only [List.foldlM_nil] at hfold
    injection hfold with hls'
    subst hls'
    exact ⟨by simp, fun k _ => rfl, fun hwf => hwf, fun hinv => hinv⟩
  | cons oe rest ih =>
    intro ls ls' hfold
    rw [List.foldlM_cons] at hfold
    cases hstep : processOadrEvent h jit rid vtn ls oe with
    | error e => rw [hstep, except_error_bind] at hfold; cases hfold
    | ok ls1 =>
      rw [hstep, except_ok_bind] at hfold
      obtain ⟨hall1, hframe1, hwf1, hinv1⟩ :=
        processOadrEvent_spec h jit rid vtn ls ls1 oe hstep
      obtain ⟨hall2, hframe2, hwf2, hinv2⟩ := ih ls1 ls' hfold
      refine ⟨?_, ?_, fun hwf => hwf2 (hwf1 hwf), fun hinv => hinv2 (hinv1 hinv)⟩
      · rw [hall2, hall1]
        simp
      · intro k hk
        simp only [List.map_cons, List.mem_cons] at hk
        push_neg at hk
        rw [hframe2 k (by simpa using hk.2), hframe1 k hk.1]

/-- Decompose a successful `foldlM` over an appended list. -/
lemma foldlM_append_except {σ α : Type} (f : σ → α → Except String σ) :
    ∀ (l1 : List α) (l2 : List α) (s s'' : σ),
    (l1 ++ l2).foldlM f s = Except.ok s'' →
    ∃ mid, l1.foldlM f s = Except.ok mid ∧ l2.foldlM f mid = Except.ok s'' := by
  intro l1
  induction l1 with
  | nil => intro l2 s s'' hh; exact ⟨s, rfl, by simpa using hh⟩
  | cons a l1 ih =>
    intro l2 s s'' hh
    rw [List.cons_append, List.foldlM_cons] at hh
    cases hstep : f s a with
    | error e => rw [hstep, except_error_bind] at hh; cases hh
    | ok s1 =>
      rw [hstep, except_ok_bind] at hh
      obtain ⟨mid, h1, h2⟩ := ih l2 s1 s'' hh
      exact ⟨mid, by rw [List.foldlM_cons, hstep, except_ok_bind]; exact h1, h2⟩

lemma option_string_contains_iff (l : List (Option String)) (k : Option String) :
    l.contains k = true ↔ k ∈ l :=
  List.elem_iff

/-- Keys of the implicit-cancellation scan: an id is a key of the
`remove_events` dict exactly when some active stored record carries that id
and the id was not seen in the batch. -/
lemma computeRemoveEvents_keys (st : Store) (all : List (Option String))
    (k : Option String) :
    k ∈ (computeRemoveEvents st all).map Prod.fst ↔
      ((∃ evt ∈ db_get_active_events st, get_event_id evt = k) ∧ k ∉ all) := by
  have haux : ∀ (acts : List EiEvent)
      (m : List (Option String × Option EiEvent)),
      (k ∈ (acts.foldl (fun m evt =>
          if all.contains (get_event_id evt) then m
          else dictInsert m (get_event_id evt) (get_event st (get_event_id evt)))
        m).map Prod.fst)
      ↔ (k ∈ m.map Prod.fst
          ∨ ∃ evt ∈ acts, get_event_id evt = k ∧ get_event_id evt ∉ all) := by
    intro acts
    induction acts with
    | nil => intro m; simp
    | cons a rest iha =>
      intro m
      rw [List.foldl_cons]
      by_cases hc : all.contains (get_event_id a) = true
      · rw [if_pos hc]
        rw [iha]
        have hmem : get_event_id a ∈ all := (option_string_contains_iff _ _).1 hc
        simp only [List.mem_cons]
        constructor
        · rintro (hm | ⟨evt, hevt, hid, hnall⟩)
          · exact Or.inl hm
          · exact Or.inr ⟨evt, Or.inr hevt, hid, hnall⟩
        · rintro (hm | ⟨evt, (rfl | hevt), hid, hnall⟩)
          · exact Or.inl hm
          · exact absurd hmem hnall
          · exact Or.inr ⟨evt, hevt, hid, hnall⟩
      · rw [if_neg hc]
        rw [iha]
        rw [dictInsert_keys_mem]
        have hnmem : get_event_id a ∉ all :=
          fun hmem => hc ((option_string_contains_iff _ _).2 hmem)
        simp only [List.mem_cons]
        constructor
        · rintro ((hm | hk) | ⟨evt, hevt, hid, hnall⟩)
          · exact Or.inl hm
          · exact Or.inr ⟨a, Or.inl rfl, hk.symm, hnmem⟩
          · exact Or.inr ⟨evt, Or.inr hevt, hid, hnall⟩
        · rintro (hm | ⟨evt, (rfl | hevt), hid, hnall⟩)
          · exact Or.inl (Or.inl hm)
          · exact Or.inl (Or.inr hid.symm)
          · exact Or.inr ⟨evt, hevt, hid, hnall⟩
  rw [computeRemoveEvents, haux]
  simp only [List.map_nil, List.not_mem_nil, false_or]
  constructor
  · rintro ⟨evt, hevt, hid, hnall⟩
    exact ⟨⟨evt, hevt, hid⟩, hid ▸ hnall⟩
  · rintro ⟨⟨evt, hevt, hid⟩, hnall⟩
    exact ⟨evt, hevt, hid, hid ▸ hnall⟩

/-! Signal-selection helper lemmas. -/

lemma sig_pick_none_iff (l : List EventSignal) :
    ∀ acc : Option EventSignal,
    (l.foldl (fun acc signal =>
        if signal.signalName = some "simple" && sigTypeValid signal.signalType then
          some signal
        else acc) acc) = none
    ↔ (acc = none ∧ ∀ s ∈ l,
        ¬((s.signalName = some "simple" && sigTypeValid s.signalType) = true)) := by
  induction l with
  | nil => intro acc; simp
  | cons a rest ih =>
    intro acc
    rw [List.foldl_cons]
    by_cases ha : (a.signalName = some "simple" && sigTypeValid a.signalType) = true
    · rw [if_pos ha, ih]
      simp only [List.mem_cons]
      constructor
      · rintro ⟨hacc, _⟩; cases hacc
      · rintro ⟨_, hall⟩; exact absurd ha (hall a (Or.inl rfl))
    · rw [if_neg ha, ih]
      simp only [List.mem_cons]
      constructor
      · rintro ⟨hacc, hall⟩
        refine ⟨hacc, fun s hs => ?_⟩
        rcases hs with rfl | hs
        · exact ha
        · exact hall s hs
      · rintro ⟨hacc, hall⟩
        exact ⟨hacc, fun s hs => hall s (Or.inr hs)⟩

lemma sig_pick_no_qual (l : List EventSignal) :
    ∀ acc : Option EventSignal,
    (∀ s ∈ l, ¬((s.signalName = some "simple" && sigTypeValid s.signalType) = true)) →
    (l.foldl (fun acc signal =>
        if signal.signalName = some "simple" && sigTypeValid signal.signalType then
          some signal
        else acc) acc) = acc := by
  induction l with
  | nil => intro acc _; rfl
  | cons a rest ih =>
    intro acc hall
    rw [List.foldl_cons, if_neg (hall a (by simp))]
    exact ih acc (fun s hs => hall s (by simp [hs]))

/-! Claim theorems. -/

/-- Claim C6: `check_target_info` accepts any event whose four target lists
are all empty, and otherwise accepts exactly when the local party id is in
`partyIDs`, or the local group id is in `groupIDs`, or the local resource
id is in `resourceIDs`, or the local VEN id is in `venIDs` — a logical OR
across populated categories. -/
theorem C6_target_or_semantics (h : EventHandler) (evt : EiEvent) :
    check_target_info h evt = true ↔
      ((get_party_ids evt = [] ∧ get_group_ids evt = [] ∧
        get_resource_ids evt = [] ∧ get_ven_ids evt = [])
       ∨ (get_party_ids evt).contains h.party_id = true
       ∨ (get_group_ids evt).contains h.group_id = true
       ∨ (get_resource_ids evt).contains h.resource_id = true
       ∨ (get_ven_ids evt).contains (some h.ven_id) = true) := by
  have key : ∀ (l : List (Option String)) (a : Option String),
      (!l.isEmpty && l.contains a) = l.contains a := by
    intro l a; cases l <;> simp
  simp only [check_target_info]
  rw [key, key, key, key]
  clear key
  by_cases hG : (!(get_party_ids evt).isEmpty || !(get_group_ids evt).isEmpty
      || !(get_resource_ids evt).isEmpty || !(get_ven_ids evt).isEmpty) = true
  · rw [if_pos hG]
    by_cases h1 : (get_party_ids evt).contains h.party_id = true <;>
    by_cases h2 : (get_group_ids evt).contains h.group_id = true <;>
    by_cases h3 : (get_resource_ids evt).contains h.resource_id = true <;>
    by_cases h4 : (get_ven_ids evt).contains (some h.ven_id) = true <;>
      (simp_all [List.isEmpty_iff]; try tauto)
  · rw [if_neg hG]
    simp only [Bool.or_eq_true, not_or, Bool.not_eq_true, Bool.not_eq_false',
      List.isEmpty_iff] at hG
    obtain ⟨⟨⟨hp, hg⟩, hr⟩, hv⟩ := hG
    simp [hp, hg, hr, hv]

/-- Claim C10 (implicit): constructing a handler with any profile string
other than `2.0a` or `2.0b` succeeds, silently resets the profile level to
`2.0a` and selects the 2.0a namespace map. -/
theorem C10_profile_fallback (ven : String) (vtns mcs g r p : Option String)
    (cb : Bool) (s : String)
    (h1 : s ≠ OADR_PROFILE_20A) (h2 : s ≠ OADR_PROFILE_20B) :
    (mkEventHandler ven vtns mcs g r p s cb).oadr_profile_level = OADR_PROFILE_20A
    ∧ (mkEventHandler ven vtns mcs g r p s cb).ns_map = NS_A := by
  simp [mkEventHandler, h1, h2]

/-- Witness for C10 at the concrete unrecognized profile string `3.0`. -/
theorem C10_profile_fallback_witness :
    (mkEventHandler "ven1" none none none none none "3.0" false).oadr_profile_level
      = OADR_PROFILE_20A
    ∧ (mkEventHandler "ven1" none none none none none "3.0" false).ns_map = NS_A :=
  C10_profile_fallback "ven1" none none none none none false "3.0"
    (by decide) (by decide)

/-- Claim C3, counterexample: the stored record for `E1` has modification
number 5 and the incoming one has 1 (a version conflict, the first check in
the spec's order), and the market context also mismatches; the recorded
decision carries status `405`, not the earlier check's `403`. -/
theorem C3_counterexample :
    get_mod_number (sampleEvent "E1" "5") = Except.ok 5
    ∧ get_mod_number evtC3 = Except.ok 1
    ∧ Except.map PassResult.decisions (handle_payload hC3 jit0 stC3 (samplePayload evtC3))
      = Except.ok [{ e_id := some "E1", mod_num := 1, requestID := some "r1",
                     opt := "optOut", status := "405" }] :=
  ⟨rfl, rfl, rfl⟩

/-- Claim C3, amended: the four admission checks are evaluated in order
without short-circuiting, each failing check overwriting `(optType,
statusCode)`, so the decision reflects the *last* failing check: a
market-context mismatch yields `405` even when earlier checks also fail;
otherwise any failure of version/targeting/signal checks yields `403`; an
event passing all checks keeps `optIn`/`200`. -/
theorem C3_last_failure_wins (h : EventHandler) (evt : EiEvent)
    (old_mod_num : Option Int) (e_mod_num : Int) :
    computeReplyOptStatus h evt old_mod_num e_mod_num =
      if csvTruthy h.market_contexts
          && !(optInList (get_market_context evt) h.market_contexts) then
        ("optOut", "405")
      else if (match old_mod_num with
               | some m => decide (m > e_mod_num)
               | none => false)
          || !(check_target_info h evt) || (get_signals evt).isNone then
        ("optOut", "403")
      else ("optIn", "200") := by
  unfold computeReplyOptStatus
  cases old_mod_num with
  | none =>
    by_cases ht : check_target_info h evt <;>
    by_cases hs : (get_signals evt).isNone <;>
    by_cases hm : (csvTruthy h.market_contexts
        && !(optInList (get_market_context evt) h.market_contexts)) = true <;>
      simp_all
  | some m =>
    by_cases hv : m > e_mod_num <;>
    by_cases ht : check_target_info h evt <;>
    by_cases hs : (get_signals evt).isNone <;>
    by_cases hm : (csvTruthy h.market_contexts
        && !(optInList (get_market_context evt) h.market_contexts)) = true <;>
      simp_all

/-- Claim C7: the derived signals value is absent exactly when no signal
definition has name `simple` and a valid type; with several qualifying
definitions the last in document order wins; an absent signals value forces
`optOut/403` for a response-eligible event whose targeting and
market-context checks pass. -/
theorem C7_simple_signal_selection :
    (∀ evt : EiEvent, (get_signals evt = none ↔
        ∀ s ∈ evt.eiEventSignals,
          ¬((s.signalName = some "simple" && sigTypeValid s.signalType) = true)))
    ∧ (∀ (evt : EiEvent) (l1 l2 : List EventSignal) (s : EventSignal),
        evt.eiEventSignals = l1 ++ s :: l2 →
        (s.signalName = some "simple" && sigTypeValid s.signalType) = true →
        (∀ t ∈ l2, ¬((t.signalName = some "simple" && sigTypeValid t.signalType) = true)) →
        get_signals evt = some (s.intervals.map (fun i => (i.duration, i.uid, i.value))))
    ∧ (∀ (h : EventHandler) (evt : EiEvent) (old_mod_num : Option Int) (e_mod_num : Int),
        get_signals evt = none →
        check_target_info h evt = true →
        (csvTruthy h.market_contexts
          && !(optInList (get_market_context evt) h.market_contexts)) = false →
        computeReplyOptStatus h evt old_mod_num e_mod_num = ("optOut", "403")) := by
  refine ⟨?_, ?_, ?_⟩
  · intro evt
    unfold get_signals
    cases hfold : evt.eiEventSignals.foldl (fun acc signal =>
        if signal.signalName = some "simple" && sigTypeValid signal.signalType then
          some signal
        else acc) none with
    | none =>
      dsimp only
      simp only [eq_self_iff_true, true_iff]
      exact ((sig_pick_none_iff _ none).1 hfold).2
    | some s =>
      dsimp only
      constructor
      · intro hcontra; exact absurd hcontra (by simp)
      · intro hall
        have hnone := (sig_pick_none_iff evt.eiEventSignals none).2 ⟨rfl, hall⟩
        rw [hfold] at hnone
        cases hnone
  · intro evt l1 l2 s hdecomp hq hnq
    unfold get_signals
    rw [hdecomp, List.foldl_append, List.foldl_cons, if_pos hq,
      sig_pick_no_qual l2 _ hnq]
  · intro h evt old_mod_num e_mod_num hsig ht hmkt
    unfold computeReplyOptStatus
    cases old_mod_num with
    | none => simp [hsig, ht, hmkt]
    | some m =>
      by_cases hv : m > e_mod_num <;> simp [hsig, ht, hmkt, hv]

/-- Witness for C7: with two qualifying `simple` signals the second one's
intervals are selected; an event whose only signal is named `other` gets
`optOut/403` at a concrete decision computation. -/
theorem C7_simple_signal_selection_witness :
    get_signals evtW7 = some [(some "PT2M", some "1", some "2.0")]
    ∧ computeReplyOptStatus sampleHandler evtW7b none 1 = ("optOut", "403") := by
  constructor
  · exact C7_simple_signal_selection.2.1 evtW7 [simpleSignal] [] sigB rfl (by decide)
      (by intro t ht; cases ht)
  · exact C7_simple_signal_selection.2.2 sampleHandler evtW7b none 1 rfl rfl rfl

/-- Claim C8, counterexample: `evtC8`'s only signal is a qualifying
`simple` signal with zero intervals; derived signals are the *empty list*
(not absent), and the record is admitted with `optIn/200` and persisted —
it is not treated as invalid. -/
theorem C8_counterexample :
    get_signals evtC8 = some []
    ∧ Except.map (fun r => (r.decisions, db_get_event r.finalStore (some "E1")))
        (handle_payload sampleHandler jit0 [] (samplePayload evtC8))
      = Except.ok ([decE1optIn], some evtC8) :=
  ⟨rfl, rfl⟩

/-- Claim C8, amended: an empty derived signals list does not make the
record invalid — the signal-validity check only rejects an *absent* signals
value, so a record whose signals are `some []` and which passes the other
checks is admitted with `optIn`/`200`. -/
theorem C8_empty_signal_list_admitted (h : EventHandler) (evt : EiEvent)
    (e_mod_num : Int)
    (hsig : get_signals evt = some [])
    (ht : check_target_info h evt = true)
    (hmkt : (csvTruthy h.market_contexts
        && !(optInList (get_market_context evt) h.market_contexts)) = false) :
    computeReplyOptStatus h evt none e_mod_num = ("optIn", "200") := by
  unfold computeReplyOptStatus
  simp [hsig, ht, hmkt]

/-- Witness for C8 at the concrete zero-interval event. -/
theorem C8_empty_signal_list_admitted_witness :
    computeReplyOptStatus sampleHandler evtC8 none 1 = ("optIn", "200") :=
  C8_empty_signal_list_admitted sampleHandler evtC8 1 rfl rfl rfl

/-- Claim C9, counterexample: a batch whose first record lacks a parseable
modification number makes the whole call raise (`TypeError`); the valid
second event is neither reconciled nor responded to. -/
theorem C9_counterexample :
    get_mod_number badEvt = Except.error "TypeError: int() argument is None"
    ∧ handle_payload sampleHandler jit0 [] pC9
      = Except.error "TypeError: int() argument is None" :=
  ⟨rfl, rfl⟩

/-- Claim C9, amended: a record lacking a parseable modification number is
*not* skipped — the uncaught exception aborts the whole reconciliation
pass, so none of the remaining events are processed and no response is
produced. -/
theorem C9_malformed_aborts_pass (h : EventHandler) (jit : Jitter) (st : Store)
    (rid vtnid : Option String) (oe : OadrEvent) (rest : List OadrEvent)
    (msg : String)
    (hvtn : (csvTruthy h.vtn_ids && !(optInList vtnid h.vtn_ids)) = false)
    (hbad : get_mod_number oe.eiEvent = Except.error msg) :
    handle_payload h jit st ⟨rid, vtnid, oe :: rest⟩ = Except.error msg := by
  have hstep : processOadrEvent h jit rid vtnid ⟨st, [], [], []⟩ oe
      = Except.error msg := by
    simp [processOadrEvent, hbad]
  simp only [handle_payload, hvtn, Bool.false_eq_true, if_false]
  rw [List.foldlM_cons, hstep, except_error_bind]

/-- Witness for C9: the concrete malformed single-event batch aborts. -/
theorem C9_malformed_aborts_pass_witness :
    handle_payload sampleHandler jit0 []
      ⟨some "r1", some "vtn1", [⟨some "always", badEvt⟩]⟩
      = Except.error "TypeError: int() argument is None" :=
  C9_malformed_aborts_pass sampleHandler jit0 [] (some "r1") (some "vtn1")
    ⟨some "always", badEvt⟩ [] _ rfl rfl

/-- Invert a successful `handle_payload` run that passed the VTN gate into
its loop state and the resulting fields. -/
lemma handle_payload_ok_elim (h : EventHandler) (jit : Jitter) (st : Store)
    (payload : DistributeEvent) (res : PassResult)
    (hvtn : (csvTruthy h.vtn_ids && !(optInList payload.vtnID h.vtn_ids)) = false)
    (hrun : handle_payload h jit st payload = Except.ok res) :
    ∃ ls : LoopState,
      payload.events.foldlM (processOadrEvent h jit payload.requestID payload.vtnID)
        ⟨st, [], [], []⟩ = Except.ok ls
      ∧ res.decisions = ls.reply_events
      ∧ res.updated = ls.updated_events
      ∧ res.removed = computeRemoveEvents ls.store ls.all_events
      ∧ res.callbackStore = (if h.event_callback then some ls.store else none)
      ∧ res.finalStore = db_remove_events ls.store
          ((computeRemoveEvents ls.store ls.all_events).map Prod.fst) := by
  simp only [handle_payload] at hrun
  split at hrun
  · rename_i hcond
    rw [hvtn] at hcond
    exact absurd hcond (by simp)
  · split at hrun
    · exact absurd hrun (by simp)
    · rename_i ls hfold
      injection hrun with hres
      subst hres
      exact ⟨ls, hfold, rfl, rfl, rfl, rfl, rfl⟩

/-- Claim C4, counterexample: re-receiving `E1` with the identical
modification number 1 under `responseRequired = always` yields
`optIn/200`, not the claimed `optOut/403` (the code's version check is
strict), though there is indeed no persistence change. -/
theorem C4_counterexample :
    db_get_event storeE1mod1 (some "E1") = some (sampleEvent "E1" "1")
    ∧ get_mod_number (sampleEvent "E1" "1") = Except.ok 1
    ∧ Except.map (fun r => (r.decisions, r.finalStore))
        (handle_payload sampleHandler jit0 storeE1mod1
          (samplePayload (sampleEvent "E1" "1")))
      = Except.ok ([decE1optIn], storeE1mod1) :=
  ⟨rfl, rfl, rfl⟩

/-- Claim C4, amended: an incoming modification number less than or equal
to the stored one never changes the store in that step, and it is recorded
as `optOut/403` only when *strictly* smaller (given `responseRequired =
always` and a passing market-context check); an equal number leaves the
version check silent. -/
theorem C4_stale_rejection (h : EventHandler) (jit : Jitter)
    (rid vtn : Option String) (ls ls' : LoopState) (oe : OadrEvent)
    (old : EiEvent) (om im : Int)
    (hstep : processOadrEvent h jit rid vtn ls oe = Except.ok ls')
    (hold : db_get_event ls.store (get_event_id oe.eiEvent) = some old)
    (hom : get_mod_number old = Except.ok om)
    (him : get_mod_number oe.eiEvent = Except.ok im)
    (hle : im ≤ om) :
    ls'.store = ls.store
    ∧ (oe.oadrResponseRequired = some "always" → im < om →
        (csvTruthy h.market_contexts
          && !(optInList (get_market_context oe.eiEvent) h.market_contexts)) = false →
        ls'.reply_events = ls.reply_events
          ++ [{ e_id := get_event_id oe.eiEvent, mod_num := im, requestID := rid,
                opt := "optOut", status := "403" }]) := by
  refine ⟨processOadrEvent_stale h jit rid vtn ls ls' oe old om im
    hstep hold hom him hle, ?_⟩
  intro hrr hlt hmkt
  have hcrs : computeReplyOptStatus h oe.eiEvent (some om) im = ("optOut", "403") := by
    unfold computeReplyOptStatus
    by_cases ht : check_target_info h oe.eiEvent <;>
    by_cases hs : (get_signals oe.eiEvent).isNone <;>
      simp_all [hlt, hmkt]
  have hdec : decide (im > om) = false := decide_eq_false (not_lt.2 hle)
  simp only [processOadrEvent, get_event, him, hold, hom, hdec, hrr, hcrs] at hstep
  split at hstep
  · rename_i hcond
    exact absurd hcond (by simp)
  · split at hstep
    · injection hstep with hls'
      subst hls'
      rfl
    · rename_i hcond
      exact absurd (by decide) hcond

/-- Witness for C4's amended statement at a concrete stale re-delivery
(stored modification number 2, incoming 1). -/
theorem C4_stale_rejection_witness :
    lsW4'.store = lsW4.store
    ∧ lsW4'.reply_events = lsW4.reply_events
      ++ [{ e_id := some "E1", mod_num := 1, requestID := some "r1",
            opt := "optOut", status := "403" }] := by
  have h := C4_stale_rejection sampleHandler jit0 (some "r1") (some "vtn1")
    lsW4 lsW4' oeW4 (sampleEvent "E1" "2") 2 1 rfl rfl rfl rfl (by decide)
  exact ⟨h.1, h.2 rfl (by decide) rfl⟩

/-- Claim C1: if the store already holds a record for an event's id with a
modification number at least the incoming one, then (for a batch listing
each id once) the stored record is untouched by the whole pass — the
incoming record is not persisted and the id is not removed. -/
theorem C1_monotonic_persistence (h : EventHandler) (jit : Jitter) (st : Store)
    (payload : DistributeEvent) (res : PassResult) (oe : OadrEvent)
    (old : EiEvent) (om im : Int)
    (hnodup : (payload.events.map (fun oe => get_event_id oe.eiEvent)).Nodup)
    (hmem : oe ∈ payload.events)
    (hold : db_get_event st (get_event_id oe.eiEvent) = some old)
    (hom : get_mod_number old = Except.ok om)
    (him : get_mod_number oe.eiEvent = Except.ok im)
    (hle : im ≤ om)
    (hrun : handle_payload h jit st payload = Except.ok res) :
    db_get_event res.finalStore (get_event_id oe.eiEvent) = some old := by
  by_cases hguard : (csvTruthy h.vtn_ids && !(optInList payload.vtnID h.vtn_ids)) = true
  · simp only [handle_payload] at hrun
    rw [if_pos hguard] at hrun
    injection hrun with hres
    subst hres
    exact hold
  · have hvtn : (csvTruthy h.vtn_ids && !(optInList payload.vtnID h.vtn_ids)) = false := by
      revert hguard
      cases (csvTruthy h.vtn_ids && !(optInList payload.vtnID h.vtn_ids)) <;> simp
    obtain ⟨ls, hfold, -, -, -, -, hfinal⟩ :=
      handle_payload_ok_elim h jit st payload res hvtn hrun
    obtain ⟨hall, -, -, -⟩ :=
      foldl_processOadrEvent_spec h jit payload.requestID payload.vtnID
        payload.events ⟨st, [], [], []⟩ ls hfold
    obtain ⟨l1, l2, hdecomp⟩ := List.append_of_mem hmem
    rw [hdecomp] at hfold
    have hnodup2 := hnodup
    rw [hdecomp] at hnodup2
    simp only [List.map_append, List.map_cons] at hnodup2
    obtain ⟨hn1, hn2, hdisj⟩ := List.nodup_append.mp hnodup2
    have hInotl1 : get_event_id oe.eiEvent ∉ l1.map (fun oe => get_event_id oe.eiEvent) :=
      fun hmem1 => hdisj hmem1 (List.mem_cons_self _ _)
    have hInotl2 : get_event_id oe.eiEvent ∉ l2.map (fun oe => get_event_id oe.eiEvent) :=
      (List.nodup_cons.mp hn2).1
    obtain ⟨mid1, hf1, hf2⟩ := foldlM_append_except _ l1 (oe :: l2) _ _ hfold
    rw [List.foldlM_cons] at hf2
    cases hstep : processOadrEvent h jit payload.requestID payload.vtnID mid1 oe with
    | error e => rw [hstep, except_error_bind] at hf2; cases hf2
    | ok mid2 =>
      rw [hstep, except_ok_bind] at hf2
      obtain ⟨-, hframe1, -, -⟩ :=
        foldl_processOadrEvent_spec h jit payload.requestID payload.vtnID l1 _ _ hf1
      have hmid1 : db_get_event mid1.store (get_event_id oe.eiEvent) = some old := by
        rw [hframe1 _ hInotl1]; exact hold
      have hstore12 : mid2.store = mid1.store :=
        processOadrEvent_stale h jit _ _ mid1 mid2 oe old om im hstep hmid1 hom him hle
      obtain ⟨-, hframe2, -, -⟩ :=
        foldl_processOadrEvent_spec h jit payload.requestID payload.vtnID l2 _ _ hf2
      have hlsI : db_get_event ls.store (get_event_id oe.eiEvent) = some old := by
        rw [hframe2 _ hInotl2, hstore12]; exact hmid1
      have hIall : get_event_id oe.eiEvent ∈ ls.all_events := by
        rw [hall, hdecomp]
        simp only [List.nil_append, List.map_append, List.map_cons]
        exact List.mem_append.2 (Or.inr (List.mem_cons_self _ _))
      have hInotkeys : get_event_id oe.eiEvent
          ∉ (computeRemoveEvents ls.store ls.all_events).map Prod.fst := by
        intro hkey
        exact ((computeRemoveEvents_keys ls.store ls.all_events _).1 hkey).2 hIall
      rw [hfinal, db_get_event_remove,
        if_neg (fun hc => hInotkeys ((option_string_contains_iff _ _).1 hc))]
      exact hlsI

/-- Witness for C1: re-delivering `E1` at the stored modification number
leaves the stored record intact through a whole concrete pass. -/
theorem C1_monotonic_persistence_witness :
    db_get_event resW1.finalStore (some "E1") = some (sampleEvent "E1" "1") :=
  C1_monotonic_persistence sampleHandler jit0 storeE1mod1
    (samplePayload (sampleEvent "E1" "1")) resW1
    ⟨some "always", sampleEvent "E1" "1"⟩ (sampleEvent "E1" "1") 1 1
    (by decide) (by decide) rfl rfl rfl (by decide) rfl

/-- Claim C2: an id stored before the pass and absent from the batch is a
key of the `remove_events` dict and is gone from the final store; an id
that appears in the batch is never a removal key. -/
theorem C2_cancellation_completeness (h : EventHandler) (jit : Jitter)
    (st : Store) (payload : DistributeEvent) (res : PassResult)
    (k : Option String) (oldE : EiEvent)
    (hwf : StoreWF st)
    (hvtn : (csvTruthy h.vtn_ids && !(optInList payload.vtnID h.vtn_ids)) = false)
    (hrun : handle_payload h jit st payload = Except.ok res)
    (hk : db_get_event st k = some oldE)
    (hnot : k ∉ payload.events.map (fun oe => get_event_id oe.eiEvent)) :
    (k ∈ res.removed.map Prod.fst ∧ db_get_event res.finalStore k = none)
    ∧ ∀ j ∈ payload.events.map (fun oe => get_event_id oe.eiEvent),
        j ∉ res.removed.map Prod.fst := by
  obtain ⟨ls, hfold, -, -, hrem, -, hfinal⟩ :=
    handle_payload_ok_elim h jit st payload res hvtn hrun
  obtain ⟨hall, hframe, hwfp, -⟩ :=
    foldl_processOadrEvent_spec h jit payload.requestID payload.vtnID
      payload.events ⟨st, [], [], []⟩ ls hfold
  have hallids : ls.all_events = payload.events.map (fun oe => get_event_id oe.eiEvent) := by
    rw [hall]; simp
  have hlsk : db_get_event ls.store k = some oldE := by
    rw [hframe k hnot]; exact hk
  have hwfls : StoreWF ls.store := hwfp hwf
  obtain ⟨r, hrmem, hrid, hrevt⟩ := db_get_event_some_mem ls.store k oldE hlsk
  have hidk : get_event_id oldE = k := by
    rw [← hrevt]
    exact (hwfls r hrmem).symm.trans hrid
  have hkmem : k ∈ (computeRemoveEvents ls.store ls.all_events).map Prod.fst := by
    apply (computeRemoveEvents_keys ls.store ls.all_events k).2
    refine ⟨⟨oldE, ?_, hidk⟩, ?_⟩
    · rw [← hrevt]
      exact List.mem_map_of_mem _ hrmem
    · rw [hallids]; exact hnot
  refine ⟨⟨?_, ?_⟩, ?_⟩
  · rw [hrem]; exact hkmem
  · rw [hfinal, db_get_event_remove,
      if_pos ((option_string_contains_iff _ _).2 hkmem)]
  · intro j hj hjkeys
    rw [hrem] at hjkeys
    have hj2 := ((computeRemoveEvents_keys ls.store ls.all_events j).1 hjkeys).2
    rw [hallids] at hj2
    exact hj2 hj

/-- Witness for C2: a concrete pass removes the stored `E0` absent from the
batch and does not remove the batch id `E1`. -/
theorem C2_cancellation_completeness_witness :
    ((some "E0") ∈ resW2.removed.map Prod.fst
      ∧ db_get_event resW2.finalStore (some "E0") = none)
    ∧ (some "E1") ∉ resW2.removed.map Prod.fst := by
  have h := C2_cancellation_completeness sampleHandler jit0 storeE0mod1
    (samplePayload (sampleEvent "E1" "1")) resW2 (some "E0") (sampleEvent "E0" "1")
    (by unfold StoreWF; decide) rfl rfl rfl (by decide)
  exact ⟨h.1, h.2 (some "E1") (by decide)⟩

/-- Claim C5, counterexample: with a registered callback and an empty
pre-pass store, the store already contains the freshly persisted `E1` at
the moment the callback is invoked — persistence is committed per-event
during the loop, before the callback, not afterwards. -/
theorem C5_counterexample :
    db_get_event ([] : Store) (some "E1") = none
    ∧ Except.map (fun r => r.callbackStore.map (fun s => db_get_event s (some "E1")))
        (handle_payload hC5 jit0 [] (samplePayload (sampleEvent "E1" "1")))
      = Except.ok (some (some (sampleEvent "E1" "1"))) :=
  ⟨rfl, rfl⟩

/-- Claim C5, amended: update commits happen during the per-event loop, so
the callback-time store already reflects every entry of the updated dict;
only removals are deferred until after the callback — every removal key is
still present at callback time and gone from the final store. -/
theorem C5_commit_order (h : EventHandler) (jit : Jitter) (st : Store)
    (payload : DistributeEvent) (res : PassResult) (cbSt : Store)
    (hwf : StoreWF st)
    (hvtn : (csvTruthy h.vtn_ids && !(optInList payload.vtnID h.vtn_ids)) = false)
    (hrun : handle_payload h jit st payload = Except.ok res)
    (hcb : res.callbackStore = some cbSt) :
    (∀ p ∈ res.updated, db_get_event cbSt p.1 = some p.2)
    ∧ ∀ k ∈ res.removed.map Prod.fst,
        db_get_event res.finalStore k = none ∧ db_get_event cbSt k ≠ none := by
  obtain ⟨ls, hfold, -, hupd, hrem, hcbs, hfinal⟩ :=
    handle_payload_ok_elim h jit st payload res hvtn hrun
  rw [hcbs] at hcb
  by_cases hec : h.event_callback = true
  · rw [if_pos hec] at hcb
    injection hcb with hcb'
    subst hcb'
    obtain ⟨hall, -, hwfp, hinv⟩ :=
      foldl_processOadrEvent_spec h jit payload.requestID payload.vtnID
        payload.events ⟨st, [], [], []⟩ ls hfold
    have hwfls : StoreWF ls.store := hwfp hwf
    constructor
    · intro p hp
      rw [hupd] at hp
      exact hinv (fun q hq => absurd hq (List.not_mem_nil q)) p hp
    · intro k hkmem
      rw [hrem] at hkmem
      obtain ⟨⟨evt, hevt, hevtid⟩, hnall⟩ :=
        (computeRemoveEvents_keys ls.store ls.all_events k).1 hkmem
      constructor
      · rw [hfinal, db_get_event_remove,
          if_pos ((option_string_contains_iff _ _).2 hkmem)]
      · rw [db_get_active_events] at hevt
        obtain ⟨r, hrmem, hrevt⟩ := List.mem_map.1 hevt
        have hrk : r.e_id = k := by
          rw [hwfls r hrmem, hrevt]; exact hevtid
        have hsome := db_get_event_isSome_of_mem ls.store r k hrmem hrk
        intro hnone
        rw [hnone] at hsome
        cases hsome
  · rw [if_neg hec] at hcb
    cases hcb

/-- Witness for C5's amended statement at a concrete pass: at callback time
the fresh `E1` is already stored and the to-be-removed `E0` is still
stored; afterwards `E0` is gone. -/
theorem C5_commit_order_witness :
    db_get_event [rowE0, rowE1] (some "E1") = some (sampleEvent "E1" "1")
    ∧ db_get_event resW5.finalStore (some "E0") = none
    ∧ db_get_event [rowE0, rowE1] (some "E0") ≠ none := by
  have h := C5_commit_order hC5 jit0 storeE0mod1
    (samplePayload (sampleEvent "E1" "1")) resW5 [rowE0, rowE1]
    (by unfold StoreWF; decide) rfl rfl rfl
  exact ⟨h.1 (some "E1", sampleEvent "E1" "1") (by decide),
    (h.2 (some "E0") (by decide)).1, (h.2 (some "E0") (by decide)).2⟩
